import Mathlib

/-!
Verification of the command-line driver
src/software/pipeline/main_3d3dRegistration.cpp of alicevision/openMVG.

The driver parses command-line options, loads a source and a target point
cloud, configures a PointcloudRegistration object, runs alignment, and
optionally exports the transformed source cloud.  We embed the driver's
control flow shallowly: the external calls (cloud loading, alignment,
export) are abstracted by an environment record holding their observable
return values, and the driver body is a pure Lean function of the parsed
arguments and that environment.

The registration engine itself (PointcloudRegistration.hpp) is not among
the sources; the scale resolver and the voxel-grid downsampler needed by
two claims are therefore modelled from the spec, and marked as such.
-/

/-- Exit code EXIT_SUCCESS used by the driver. -/
def EXIT_SUCCESS : Nat := 0

/-- Exit code EXIT_FAILURE used by the driver. -/
def EXIT_FAILURE : Nat := 1

/-- Modelled from the spec: the alignment-method enum EAlignmentMethod is
declared in PointcloudRegistration.hpp, which is not among the sources.
The spec lists plain ICP, Generalized ICP (GICP) and a point-to-plane
variant as the algorithm family. -/
inductive EAlignmentMethod
  | ICP
  | GICP
  | pointToPlane
deriving DecidableEq, Repr

/-- A floating-point scalar of the driver, embedded as either a genuine
rational value or the not-a-number marker. -/
inductive FVal
  | nan
  | val (q : ℚ)
deriving DecidableEq, Repr

/-- Whether an embedded scalar is the not-a-number marker. -/
def FVal.isNaN : FVal → Bool
  | .nan => true
  | .val _ => false

/-- A 4 x 4 homogeneous transform, entrywise. -/
abbrev Mat4 : Type := Fin 4 → Fin 4 → FVal

/-- Embedding of Eigen's T.hasNaN(): true when some entry of the matrix is
not-a-number. -/
def hasNaN (T : Mat4) : Bool :=
  (List.finRange 4).any fun i => (List.finRange 4).any fun j => (T i j).isNaN

/-- The parsed command-line arguments of the driver (lines 35-67 of
main_3d3dRegistration.cpp). -/
structure Args where
  sourceFile : String
  targetFile : String
  outputFile : String
  method : EAlignmentMethod
  scaleRatio : ℚ
  sourceMeasurement : ℚ
  targetMeasurement : ℚ
  voxelSize : ℚ
  showTimeline : Bool

/-- The default argument values from lines 28 and 44-50 of the driver:
method GICP, empty output file, measurements 1, scale ratio 1, voxel size
0.1, timeline shown.  The two required path arguments have no default. -/
def defaultArgs (sourceFile targetFile : String) : Args :=
  { sourceFile := sourceFile
  , targetFile := targetFile
  , outputFile := ""
  , method := EAlignmentMethod.GICP
  , scaleRatio := 1
  , sourceMeasurement := 1
  , targetMeasurement := 1
  , voxelSize := 1 / 10
  , showTimeline := true }

/-- Environment abstracting the external calls the driver makes: the return
codes of reg.loadSourceCloud and reg.loadTargetCloud, the transform
returned by reg.align as a function of the configuration fed to reg by the
setters (method, scale ratio, target and source measurement, voxel size),
and the return code of reg.tranformAndSaveCloud. -/
structure RunEnv where
  loadSourceRet : Nat
  loadTargetRet : Nat
  align : EAlignmentMethod → ℚ → ℚ → ℚ → ℚ → Mat4
  exportRet : Nat

/-- The transform computed at line 135 of the driver: reg.align(method)
after the setters of lines 128-131 fed the configuration to reg. -/
def finalTransform (args : Args) (env : RunEnv) : Mat4 :=
  env.align args.method args.scaleRatio args.targetMeasurement
    args.sourceMeasurement args.voxelSize

/-- The observable outcome of one driver run: process exit code, whether
reg.align was called, the transform it returned (none when never called),
whether reg.showTimeline was called, and whether reg.tranformAndSaveCloud
was called. -/
structure RunOutcome where
  exitCode : Nat
  alignAttempted : Bool
  transform : Option Mat4
  timelineShown : Bool
  exported : Bool

/-- Embedding of the driver body after successful option parsing (lines
102-158): load source cloud (early EXIT_FAILURE on failure), load target
cloud (same), configure and align, EXIT_FAILURE when the transform has a
not-a-number entry, otherwise show the timeline when asked, then either
EXIT_SUCCESS without export when the output path is empty, or return the
export call's return value. -/
def mainRun (args : Args) (env : RunEnv) : RunOutcome :=
  if env.loadSourceRet = EXIT_FAILURE then
    { exitCode := EXIT_FAILURE, alignAttempted := false, transform := none
    , timelineShown := false, exported := false }
  else if env.loadTargetRet = EXIT_FAILURE then
    { exitCode := EXIT_FAILURE, alignAttempted := false, transform := none
    , timelineShown := false, exported := false }
  else
    let T := finalTransform args env
    if hasNaN T then
      { exitCode := EXIT_FAILURE, alignAttempted := true, transform := some T
      , timelineShown := false, exported := false }
    else if args.outputFile = "" then
      { exitCode := EXIT_SUCCESS, alignAttempted := true, transform := some T
      , timelineShown := args.showTimeline, exported := false }
    else
      { exitCode := env.exportRet, alignAttempted := true, transform := some T
      , timelineShown := args.showTimeline, exported := true }

/-- Outcome of the option-parsing phase when it terminates the process. -/
structure ParseExit where
  code : Nat
  usagePrinted : Bool
deriving DecidableEq, Repr

/-- Observable behaviour of the boost program-options calls of lines
77-100: whether po::store threw, whether the variables map counts a
"help" entry, whether po::notify would throw a required_option error, and
whether it would throw any other program-options error. -/
structure ParseEnv where
  argc : Nat
  storeError : Bool
  helpRequested : Bool
  requiredMissing : Bool
  notifyError : Bool
deriving DecidableEq, Repr

/-- Embedding of lines 77-100 of the driver: po::store first (a thrown
error is caught and yields EXIT_FAILURE with the usage printed), then the
help-or-no-arguments check returning EXIT_SUCCESS with the usage printed,
then po::notify whose required_option or other error yields EXIT_FAILURE
with the usage printed; otherwise parsing succeeds and the driver body
runs. -/
def parsePhase (pe : ParseEnv) : Option ParseExit :=
  if pe.storeError then some { code := EXIT_FAILURE, usagePrinted := true }
  else if pe.helpRequested ∨ pe.argc = 1 then
    some { code := EXIT_SUCCESS, usagePrinted := true }
  else if pe.requiredMissing then some { code := EXIT_FAILURE, usagePrinted := true }
  else if pe.notifyError then some { code := EXIT_FAILURE, usagePrinted := true }
  else none

/-- Embedding of the whole driver main: the parse phase either terminates
the process (nothing past parsing runs) or hands over to the driver
body. -/
def mainProgram (pe : ParseEnv) (args : Args) (env : RunEnv) : RunOutcome :=
  match parsePhase pe with
  | some e =>
      { exitCode := e.code, alignAttempted := false, transform := none
      , timelineShown := false, exported := false }
  | none => mainRun args env

/-- A transform with every entry zero: a sample not-a-number-free value. -/
def zeroMat : Mat4 := fun _ _ => FVal.val 0

/-- A transform with every entry not-a-number: a sample diverged value. -/
def nanMat : Mat4 := fun _ _ => FVal.nan

example : hasNaN zeroMat = false := by decide
example : hasNaN nanMat = true := by decide

/-- Result of scale resolution: a scale factor, or the invalid-measurement
configuration error. -/
inductive ScaleResult
  | ok (s : ℚ)
  | invalidMeasurement
deriving DecidableEq, Repr

/-- Modelled from the spec: the scale resolver lives in
PointcloudRegistration (not among the sources).  Per the spec, if the
explicit ratio is supplied (non-default, the default being 1.0) it takes
precedence; otherwise the scale factor is targetMeasurement divided by
sourceMeasurement, and a zero sourceMeasurement fails with the
invalid-measurement configuration error. -/
def resolveScale (explicitRatio sourceMeasurement targetMeasurement : ℚ) :
    ScaleResult :=
  if explicitRatio ≠ 1 then ScaleResult.ok explicitRatio
  else if sourceMeasurement = 0 then ScaleResult.invalidMeasurement
  else ScaleResult.ok (targetMeasurement / sourceMeasurement)

example : resolveScale 2 1 1 = ScaleResult.ok 2 := by norm_num [resolveScale]
example : resolveScale 1 2 6 = ScaleResult.ok 3 := by norm_num [resolveScale]
example : resolveScale 1 0 6 = ScaleResult.invalidMeasurement := by
  norm_num [resolveScale]

/-- A 3D point with rational coordinates. -/
structure P3 where
  x : ℚ
  y : ℚ
  z : ℚ
deriving DecidableEq, Repr

/-- The voxel index of a point for a grid of cube edge V: floor-divide of
each coordinate by V. -/
def voxelIdx (V : ℚ) (p : P3) : ℤ × ℤ × ℤ :=
  (⌊p.x / V⌋, ⌊p.y / V⌋, ⌊p.z / V⌋)

/-- The centroid of a list of points (componentwise mean). -/
def centroid (ps : List P3) : P3 :=
  { x := (ps.map P3.x).sum / (ps.length : ℚ)
  , y := (ps.map P3.y).sum / (ps.length : ℚ)
  , z := (ps.map P3.z).sum / (ps.length : ℚ) }

/-- Modelled from the spec: the voxel-grid downsampler lives in
PointcloudRegistration (not among the sources).  Per the spec, space is
partitioned into cubes of edge V, every point maps to exactly one voxel
via floor-divide of each coordinate by V, and all points falling in the
same voxel are replaced by their centroid; the output order is
unspecified (grouping by voxel). -/
def downsample (V : ℚ) (cloud : List P3) : List P3 :=
  ((cloud.map (voxelIdx V)).dedup).map fun k =>
    centroid (cloud.filter fun p => decide (voxelIdx V p = k))

example : (downsample 1 [⟨0, 0, 0⟩, ⟨(1 : ℚ) / 2, 0, 0⟩]).length = 1 := by
  norm_num [downsample, voxelIdx, centroid, List.dedup]

/-- Sample arguments: default options with the two required paths. -/
def sampleArgs : Args := defaultArgs "source.ply" "target.ply"

/-- Sample arguments with a non-empty output path. -/
def sampleArgsOut : Args := { sampleArgs with outputFile := "out.ply" }

/-- Sample environment: both loads succeed, alignment returns the zero
transform, export succeeds. -/
def sampleEnvOk : RunEnv :=
  { loadSourceRet := EXIT_SUCCESS, loadTargetRet := EXIT_SUCCESS
  , align := fun _ _ _ _ _ => zeroMat, exportRet := EXIT_SUCCESS }

/-- Sample environment whose source-cloud load fails. -/
def sampleEnvLoadFail : RunEnv := { sampleEnvOk with loadSourceRet := EXIT_FAILURE }

/-- Sample environment whose alignment diverges to a not-a-number
transform. -/
def sampleEnvNaN : RunEnv := { sampleEnvOk with align := fun _ _ _ _ _ => nanMat }

/-- Sample environment whose export call fails. -/
def sampleEnvExportFail : RunEnv := { sampleEnvOk with exportRet := EXIT_FAILURE }

/-- Claim C1: in every run in which loading the source cloud or loading the
target cloud fails, the driver exits with the non-zero status EXIT_FAILURE
and alignment is never attempted. -/
theorem C1_load_failure_aborts_before_alignment (args : Args) (env : RunEnv)
    (h : env.loadSourceRet = EXIT_FAILURE ∨ env.loadTargetRet = EXIT_FAILURE) :
    (mainRun args env).exitCode = EXIT_FAILURE ∧
    (mainRun args env).exitCode ≠ 0 ∧
    (mainRun args env).alignAttempted = false := by
  rcases h with hs | ht
  · simp [mainRun, hs]
    decide
  · by_cases hs : env.loadSourceRet = EXIT_FAILURE
    · simp [mainRun, hs]
      decide
    · simp [mainRun, hs, ht]
      decide

/-- Witness for C1 at a concrete run whose source-cloud load fails. -/
theorem C1_load_failure_aborts_before_alignment_witness :
    (sampleEnvLoadFail.loadSourceRet = EXIT_FAILURE ∨
      sampleEnvLoadFail.loadTargetRet = EXIT_FAILURE) ∧
    ((mainRun sampleArgs sampleEnvLoadFail).exitCode = EXIT_FAILURE ∧
     (mainRun sampleArgs sampleEnvLoadFail).exitCode ≠ 0 ∧
     (mainRun sampleArgs sampleEnvLoadFail).alignAttempted = false) :=
  ⟨Or.inl rfl,
    C1_load_failure_aborts_before_alignment sampleArgs sampleEnvLoadFail (Or.inl rfl)⟩

/-- Claim C2: in every run in which both clouds load and the transform
returned by align has a not-a-number entry, the driver exits with the
non-zero status EXIT_FAILURE and the export call never runs, whatever the
output path. -/
theorem C2_nan_transform_fails_and_skips_export (args : Args) (env : RunEnv)
    (hs : env.loadSourceRet ≠ EXIT_FAILURE) (ht : env.loadTargetRet ≠ EXIT_FAILURE)
    (hn : hasNaN (finalTransform args env) = true) :
    (mainRun args env).exitCode = EXIT_FAILURE ∧
    (mainRun args env).exitCode ≠ 0 ∧
    (mainRun args env).exported = false := by
  simp [mainRun, hs, ht, hn]
  decide

/-- Witness for C2 at a concrete diverged run with a non-empty output
path. -/
theorem C2_nan_transform_fails_and_skips_export_witness :
    (sampleEnvNaN.loadSourceRet ≠ EXIT_FAILURE ∧
     sampleEnvNaN.loadTargetRet ≠ EXIT_FAILURE ∧
     hasNaN (finalTransform sampleArgsOut sampleEnvNaN) = true) ∧
    ((mainRun sampleArgsOut sampleEnvNaN).exitCode = EXIT_FAILURE ∧
     (mainRun sampleArgsOut sampleEnvNaN).exitCode ≠ 0 ∧
     (mainRun sampleArgsOut sampleEnvNaN).exported = false) :=
  ⟨⟨by decide, by decide, by decide⟩,
    C2_nan_transform_fails_and_skips_export sampleArgsOut sampleEnvNaN
      (by decide) (by decide) (by decide)⟩

/-- Claim C3: in every run in which both clouds load and the transform is
free of not-a-number entries, an empty output path means no export and
exit with success status 0. -/
theorem C3_empty_output_skips_export_success (args : Args) (env : RunEnv)
    (hs : env.loadSourceRet ≠ EXIT_FAILURE) (ht : env.loadTargetRet ≠ EXIT_FAILURE)
    (hn : hasNaN (finalTransform args env) = false) (ho : args.outputFile = "") :
    (mainRun args env).exported = false ∧
    (mainRun args env).exitCode = EXIT_SUCCESS ∧
    (mainRun args env).exitCode = 0 := by
  simp [mainRun, hs, ht, hn, ho]
  decide

/-- Witness for C3 at a concrete successful run with the default (empty)
output path. -/
theorem C3_empty_output_skips_export_success_witness :
    (sampleEnvOk.loadSourceRet ≠ EXIT_FAILURE ∧
     sampleEnvOk.loadTargetRet ≠ EXIT_FAILURE ∧
     hasNaN (finalTransform sampleArgs sampleEnvOk) = false ∧
     sampleArgs.outputFile = "") ∧
    ((mainRun sampleArgs sampleEnvOk).exported = false ∧
     (mainRun sampleArgs sampleEnvOk).exitCode = EXIT_SUCCESS ∧
     (mainRun sampleArgs sampleEnvOk).exitCode = 0) :=
  ⟨⟨by decide, by decide, by decide, rfl⟩,
    C3_empty_output_skips_export_success sampleArgs sampleEnvOk
      (by decide) (by decide) (by decide) rfl⟩

/-- Claim C4: the command-line defaults are method GICP, scale ratio 1,
source measurement 1, target measurement 1, voxel size 0.1, and timeline
display on. -/
theorem C4_cli_defaults (s t : String) :
    (defaultArgs s t).method = EAlignmentMethod.GICP ∧
    (defaultArgs s t).scaleRatio = 1 ∧
    (defaultArgs s t).sourceMeasurement = 1 ∧
    (defaultArgs s t).targetMeasurement = 1 ∧
    (defaultArgs s t).voxelSize = 1 / 10 ∧
    (defaultArgs s t).showTimeline = true :=
  ⟨rfl, rfl, rfl, rfl, rfl, rfl⟩

/-- Claim C5: two runs of the whole driver that differ only in the
showTimeline flag produce the same alignment transform and the same exit
status. -/
theorem C5_showTimeline_noninterference (pe : ParseEnv) (args : Args)
    (env : RunEnv) (b₁ b₂ : Bool) :
    (mainProgram pe { args with showTimeline := b₁ } env).transform
      = (mainProgram pe { args with showTimeline := b₂ } env).transform ∧
    (mainProgram pe { args with showTimeline := b₁ } env).exitCode
      = (mainProgram pe { args with showTimeline := b₂ } env).exitCode := by
  unfold mainProgram
  cases parsePhase pe with
  | some e => exact ⟨rfl, rfl⟩
  | none =>
    unfold mainRun finalTransform
    by_cases hs : env.loadSourceRet = EXIT_FAILURE
    · simp [hs]
    · by_cases ht : env.loadTargetRet = EXIT_FAILURE
      · simp [hs, ht]
      · by_cases hn :
          hasNaN (env.align args.method args.scaleRatio args.targetMeasurement
            args.sourceMeasurement args.voxelSize) = true
        · simp [hs, ht, hn]
        · by_cases ho : args.outputFile = "" <;> simp [hs, ht, hn, ho]

/-- Claim C8: in every run with both clouds loaded, a not-a-number-free
transform and a non-empty output path, the exit status is exactly the
return value of the export call, which does run. -/
theorem C8_export_return_is_exit_status (args : Args) (env : RunEnv)
    (hs : env.loadSourceRet ≠ EXIT_FAILURE) (ht : env.loadTargetRet ≠ EXIT_FAILURE)
    (hn : hasNaN (finalTransform args env) = false) (ho : args.outputFile ≠ "") :
    (mainRun args env).exitCode = env.exportRet ∧
    (mainRun args env).exported = true ∧
    (mainRun args env).alignAttempted = true := by
  simp [mainRun, hs, ht, hn, ho]

/-- Witness for C8 at a concrete run whose export call fails: the failing
export return value becomes the exit status. -/
theorem C8_export_return_is_exit_status_witness :
    (sampleEnvExportFail.loadSourceRet ≠ EXIT_FAILURE ∧
     sampleEnvExportFail.loadTargetRet ≠ EXIT_FAILURE ∧
     hasNaN (finalTransform sampleArgsOut sampleEnvExportFail) = false ∧
     sampleArgsOut.outputFile ≠ "") ∧
    ((mainRun sampleArgsOut sampleEnvExportFail).exitCode
        = sampleEnvExportFail.exportRet ∧
     (mainRun sampleArgsOut sampleEnvExportFail).exported = true ∧
     (mainRun sampleArgsOut sampleEnvExportFail).alignAttempted = true) :=
  ⟨⟨by decide, by decide, by decide, by decide⟩,
    C8_export_return_is_exit_status sampleArgsOut sampleEnvExportFail
      (by decide) (by decide) (by decide) (by decide)⟩

/-- Claim C9: a call with argc = 1 prints the usage and exits with success
status 0, even when the required source and target paths are missing.
With argc = 1 there are no command-line tokens, so po::store parses
nothing and cannot throw, and the variables map counts no help entry;
whether po::notify would have reported missing required options is
irrelevant because the help-or-no-arguments branch returns first. -/
theorem C9_no_arguments_prints_usage_and_succeeds (rm nf : Bool) :
    parsePhase { argc := 1, storeError := false, helpRequested := false
               , requiredMissing := rm, notifyError := nf }
      = some { code := EXIT_SUCCESS, usagePrinted := true } ∧
    EXIT_SUCCESS = 0 :=
  ⟨by simp [parsePhase], rfl⟩

/-- Claim C10: in every run in which the transform returned by align has a
not-a-number entry, the timeline is never shown, whatever the
showTimeline flag. -/
theorem C10_nan_skips_timeline (args : Args) (env : RunEnv)
    (hs : env.loadSourceRet ≠ EXIT_FAILURE) (ht : env.loadTargetRet ≠ EXIT_FAILURE)
    (hn : hasNaN (finalTransform args env) = true) :
    (mainRun args env).timelineShown = false := by
  simp [mainRun, hs, ht, hn]

/-- Witness for C10 at a concrete diverged run whose showTimeline flag is
true. -/
theorem C10_nan_skips_timeline_witness :
    (sampleArgsOut.showTimeline = true ∧
     sampleEnvNaN.loadSourceRet ≠ EXIT_FAILURE ∧
     sampleEnvNaN.loadTargetRet ≠ EXIT_FAILURE ∧
     hasNaN (finalTransform sampleArgsOut sampleEnvNaN) = true) ∧
    (mainRun sampleArgsOut sampleEnvNaN).timelineShown = false :=
  ⟨⟨rfl, by decide, by decide, by decide⟩,
    C10_nan_skips_timeline sampleArgsOut sampleEnvNaN
      (by decide) (by decide) (by decide)⟩

/-- Claim C6: with positive ratio and measurements, a non-default explicit
ratio takes precedence over the measurements, the default ratio resolves
to targetMeasurement / sourceMeasurement, and resolving with ratio r
agrees with resolving with measurements a, b whenever r = b / a. -/
theorem C6_resolveScale_consistent (r a b : ℚ)
    (hr : 0 < r) (ha : 0 < a) (hb : 0 < b) :
    (r ≠ 1 → resolveScale r a b = ScaleResult.ok r) ∧
    resolveScale 1 a b = ScaleResult.ok (b / a) ∧
    (r = b / a → resolveScale r 1 1 = resolveScale 1 a b) := by
  refine ⟨fun hr1 => ?_, ?_, fun hrab => ?_⟩
  · simp [resolveScale, hr1]
  · simp [resolveScale, ha.ne']
  · by_cases hr1 : r = 1
    · subst hr1
      have hba : b / a = 1 := hrab.symm
      simp [resolveScale, ha.ne', hba]
    · simp [resolveScale, hr1, ha.ne', ← hrab]

/-- Witness for C6 at the concrete inputs r = 2, a = 1, b = 2. -/
theorem C6_resolveScale_consistent_witness :
    ((0 : ℚ) < 2 ∧ (0 : ℚ) < 1 ∧ (0 : ℚ) < 2) ∧
    (((2 : ℚ) ≠ 1 → resolveScale 2 1 2 = ScaleResult.ok 2) ∧
     resolveScale 1 1 2 = ScaleResult.ok (2 / 1) ∧
     ((2 : ℚ) = 2 / 1 → resolveScale 2 1 1 = resolveScale 1 1 2)) :=
  ⟨⟨by norm_num, by norm_num, by norm_num⟩,
    C6_resolveScale_consistent 2 1 2 (by norm_num) (by norm_num) (by norm_num)⟩

/-- Summing a lower bound over a list of rationals. -/
theorem list_mul_le_sum (a : ℚ) :
    ∀ l : List ℚ, (∀ x ∈ l, a ≤ x) → a * (l.length : ℚ) ≤ l.sum := by
  intro l
  induction l with
  | nil => intro _; simp
  | cons x xs ih =>
    intro h
    have hx : a ≤ x := h x (List.mem_cons_self x xs)
    have hxs := ih fun y hy => h y (List.mem_cons_of_mem x hy)
    simp only [List.sum_cons, List.length_cons]
    push_cast
    have hring : a * ((xs.length : ℚ) + 1) = a * (xs.length : ℚ) + a := by ring
    linarith

/-- Summing a strict upper bound over a nonempty list of rationals. -/
theorem list_sum_lt_mul (b : ℚ) :
    ∀ l : List ℚ, l ≠ [] → (∀ x ∈ l, x < b) → l.sum < b * (l.length : ℚ) := by
  intro l
  induction l with
  | nil => intro h; exact absurd rfl h
  | cons x xs ih =>
    intro _ h
    have hx : x < b := h x (List.mem_cons_self x xs)
    by_cases hxs : xs = []
    · subst hxs
      simpa using hx
    · have hs := ih hxs fun y hy => h y (List.mem_cons_of_mem x hy)
      simp only [List.sum_cons, List.length_cons]
      push_cast
      have hring : b * ((xs.length : ℚ) + 1) = b * (xs.length : ℚ) + b := by ring
      linarith

/-- The mean of a nonempty list of rationals lying in a half-open interval
lies in that interval. -/
theorem mean_bounds {l : List ℚ} {a b : ℚ} (hne : l ≠ [])
    (h : ∀ x ∈ l, a ≤ x ∧ x < b) :
    a ≤ l.sum / (l.length : ℚ) ∧ l.sum / (l.length : ℚ) < b := by
  have hn : 0 < (l.length : ℚ) := by
    exact_mod_cast List.length_pos.mpr hne
  constructor
  · rw [le_div_iff hn]
    have := list_mul_le_sum a l fun x hx => (h x hx).1
    linarith
  · rw [div_lt_iff hn]
    have := list_sum_lt_mul b l hne fun x hx => (h x hx).2
    linarith

/-- A coordinate whose floor-divide by V equals m lies in the half-open
voxel interval of index m. -/
theorem floor_div_bounds {x V : ℚ} {m : ℤ} (hV : 0 < V) (h : ⌊x / V⌋ = m) :
    (m : ℚ) * V ≤ x ∧ x < ((m : ℚ) + 1) * V := by
  rw [Int.floor_eq_iff] at h
  constructor
  · have h1 := h.1
    rwa [le_div_iff hV] at h1
  · have h2 := h.2
    rwa [div_lt_iff hV] at h2

/-- Decoding a voxel index into per-axis interval bounds. -/
theorem voxel_bounds {V : ℚ} (hV : 0 < V) {p : P3} {k : ℤ × ℤ × ℤ}
    (h : voxelIdx V p = k) :
    ((k.1 : ℚ) * V ≤ p.x ∧ p.x < ((k.1 : ℚ) + 1) * V) ∧
    ((k.2.1 : ℚ) * V ≤ p.y ∧ p.y < ((k.2.1 : ℚ) + 1) * V) ∧
    ((k.2.2 : ℚ) * V ≤ p.z ∧ p.z < ((k.2.2 : ℚ) + 1) * V) := by
  obtain ⟨k1, k2, k3⟩ := k
  simp only [voxelIdx, Prod.mk.injEq] at h
  obtain ⟨h1, h2, h3⟩ := h
  exact ⟨floor_div_bounds hV h1, floor_div_bounds hV h2, floor_div_bounds hV h3⟩

/-- One coordinate of the centroid of a nonempty list of points whose
images under f lie in a half-open interval lies in that interval. -/
theorem centroid_axis_bounds {l : List P3} {f : P3 → ℚ} {a b : ℚ} (hne : l ≠ [])
    (h : ∀ p ∈ l, a ≤ f p ∧ f p < b) :
    a ≤ (l.map f).sum / (l.length : ℚ) ∧ (l.map f).sum / (l.length : ℚ) < b := by
  have hne2 : l.map f ≠ [] := by simpa using hne
  have h2 : ∀ x ∈ l.map f, a ≤ x ∧ x < b := by
    intro x hx
    obtain ⟨p, hp, rfl⟩ := List.mem_map.mp hx
    exact h p hp
  have hm := mean_bounds hne2 h2
  simpa [List.length_map] using hm

/-- Two values in the same half-open voxel interval differ by less than the
voxel edge. -/
theorem interval_abs_lt {a v qx px : ℚ} (h1 : a * v ≤ qx) (h2 : qx < (a + 1) * v)
    (h3 : a * v ≤ px) (h4 : px < (a + 1) * v) : |qx - px| < v := by
  rw [abs_sub_lt_iff]
  have hring : (a + 1) * v = a * v + v := by ring
  constructor <;> linarith

/-- Every output point of the downsampler is the centroid of the input
points of some occupied voxel. -/
theorem downsample_mem {V : ℚ} {cloud : List P3} {q : P3}
    (hq : q ∈ downsample V cloud) :
    ∃ k : ℤ × ℤ × ℤ, (∃ p ∈ cloud, voxelIdx V p = k) ∧
      q = centroid (cloud.filter fun p => decide (voxelIdx V p = k)) := by
  unfold downsample at hq
  obtain ⟨k, hk, rfl⟩ := List.mem_map.mp hq
  have hk2 : k ∈ cloud.map (voxelIdx V) := List.mem_dedup.mp hk
  obtain ⟨p, hp, hpk⟩ := List.mem_map.mp hk2
  exact ⟨k, ⟨p, hp, hpk⟩, rfl⟩

/-- Claim C7: for every cloud and voxel size V > 0, downsampling never
increases the point count, and every output point lies within one
voxel-cube (strictly less than V along each axis) of each of the input
points of its voxel. -/
theorem C7_downsample_count_and_locality (V : ℚ) (hV : 0 < V) (cloud : List P3) :
    (downsample V cloud).length ≤ cloud.length ∧
    ∀ q ∈ downsample V cloud, ∃ k : ℤ × ℤ × ℤ,
      (∃ p ∈ cloud, voxelIdx V p = k) ∧
      ∀ p ∈ cloud, voxelIdx V p = k →
        |q.x - p.x| < V ∧ |q.y - p.y| < V ∧ |q.z - p.z| < V := by
  constructor
  · unfold downsample
    rw [List.length_map]
    calc (cloud.map (voxelIdx V)).dedup.length
        ≤ (cloud.map (voxelIdx V)).length := (List.dedup_sublist _).length_le
      _ = cloud.length := List.length_map _ _
  · intro q hq
    obtain ⟨k, ⟨p0, hp0, hp0k⟩, hqc⟩ := downsample_mem hq
    refine ⟨k, ⟨p0, hp0, hp0k⟩, ?_⟩
    intro p hp hpk
    subst hqc
    set l := cloud.filter (fun p => decide (voxelIdx V p = k)) with hl
    have hmem : ∀ r ∈ l, voxelIdx V r = k := by
      intro r hr
      have hr2 := List.mem_filter.mp hr
      exact of_decide_eq_true hr2.2
    have hne : l ≠ [] := by
      have hp0l : p0 ∈ l :=
        List.mem_filter.mpr ⟨hp0, by simpa using hp0k⟩
      exact List.ne_nil_of_mem hp0l
    have hbp := voxel_bounds hV hpk
    refine ⟨?_, ?_, ?_⟩
    · have hb : ∀ r ∈ l, (k.1 : ℚ) * V ≤ r.x ∧ r.x < ((k.1 : ℚ) + 1) * V :=
        fun r hr => (voxel_bounds hV (hmem r hr)).1
      have hc := centroid_axis_bounds hne hb
      have habs :
          |(l.map P3.x).sum / (l.length : ℚ) - p.x| < V :=
        interval_abs_lt hc.1 hc.2 hbp.1.1 hbp.1.2
      simpa [centroid] using habs
    · have hb : ∀ r ∈ l, (k.2.1 : ℚ) * V ≤ r.y ∧ r.y < ((k.2.1 : ℚ) + 1) * V :=
        fun r hr => (voxel_bounds hV (hmem r hr)).2.1
      have hc := centroid_axis_bounds hne hb
      have habs :
          |(l.map P3.y).sum / (l.length : ℚ) - p.y| < V :=
        interval_abs_lt hc.1 hc.2 hbp.2.1.1 hbp.2.1.2
      simpa [centroid] using habs
    · have hb : ∀ r ∈ l, (k.2.2 : ℚ) * V ≤ r.z ∧ r.z < ((k.2.2 : ℚ) + 1) * V :=
        fun r hr => (voxel_bounds hV (hmem r hr)).2.2
      have hc := centroid_axis_bounds hne hb
      have habs :
          |(l.map P3.z).sum / (l.length : ℚ) - p.z| < V :=
        interval_abs_lt hc.1 hc.2 hbp.2.2.1 hbp.2.2.2
      simpa [centroid] using habs

/-- Witness for C7 at voxel size 1 and a one-point cloud. -/
theorem C7_downsample_count_and_locality_witness :
    (0 : ℚ) < 1 ∧
    ((downsample 1 [⟨0, 0, 0⟩]).length ≤ [(⟨0, 0, 0⟩ : P3)].length ∧
     ∀ q ∈ downsample 1 [⟨0, 0, 0⟩], ∃ k : ℤ × ℤ × ℤ,
       (∃ p ∈ [(⟨0, 0, 0⟩ : P3)], voxelIdx 1 p = k) ∧
       ∀ p ∈ [(⟨0, 0, 0⟩ : P3)], voxelIdx 1 p = k →
         |q.x - p.x| < 1 ∧ |q.y - p.y| < 1 ∧ |q.z - p.z| < 1) :=
  ⟨by norm_num, C7_downsample_count_and_locality 1 (by norm_num) [⟨0, 0, 0⟩]⟩
